import Mathlib

/-!
Verification of the eligibility-determination engine of the
foerdercheck.nrw backend (`src/backend/app/main.py`).

The engine consists of two pure functions over immutable constant tables:
`calculate_limits` (adjusted income thresholds for a household) and
`determine_eligibility` (tiered classification of the household's income).
Python floats carrying whole-currency amounts are modelled as `ℚ`,
Python ints as `ℤ`; the dictionary lookups keyed by `adultCount`
(raising `KeyError` outside `{1, 2}`) are modelled as `Option`-valued
lookups returning `none` there.  The German result strings of the source
are kept verbatim; the spec's reason codes correspond to them one-to-one:
"invalid-input" ↦ "Ungültige Eingabedaten. Bitte überprüfen Sie Ihre Angaben.",
"invalid-income" ↦ "Das Einkommen muss größer als 0 sein.",
"group-a-qualified" ↦ "Sie erfüllen die Voraussetzungen für Gruppe A.",
"both-exceed-b" ↦ "Ihr Brutto- und Nettoeinkommen liegen über den zulässigen Grenzen.",
"gross-exceeds-b" ↦ "Ihr Bruttoeinkommen liegt über der zulässigen Grenze.",
"net-exceeds-b" ↦ "Ihr Nettoeinkommen liegt über der zulässigen Grenze.",
"group-b-qualified" ↦ "Sie erfüllen die Voraussetzungen für Gruppe B.",
GroupA ↦ "Gruppe A", GroupB ↦ "Gruppe B", Ineligible ↦ "Nicht Förderungsfähig".
-/

/-- A row of four thresholds `{grossA, netA, grossB, netB}`; also the shape
of the per-additional-child bonus rows and of the reported child bonus. -/
structure Row where
  grossA : ℚ
  netA : ℚ
  grossB : ℚ
  netB : ℚ
  deriving DecidableEq

/-- The `EligibilityRequest` pydantic model of `main.py` (lines 86-93). -/
structure EligibilityRequest where
  adultCount : ℤ
  childCount : ℤ
  isDisabled : Bool
  isMarried : Bool
  isRetired : Bool
  grossIncome : ℚ
  netIncome : ℚ
  deriving DecidableEq

/-- `ELIGIBILITY_CRITERIA_NO_KIDS` (main.py lines 34-43): base criteria for
households without kids, keyed by adult count and the "base"/"retired"
variant.  `none` models the `KeyError` for an adult count outside `{1, 2}`. -/
def ELIGIBILITY_CRITERIA_NO_KIDS (adultCount : ℤ) (isRetired : Bool) : Option Row :=
  if adultCount = 1 then
    some (if isRetired then ⟨31076, 23540, 40911, 32956⟩ else ⟨38011, 23540, 52724, 32956⟩)
  else if adultCount = 2 then
    some (if isRetired then ⟨42668, 28350, 56244, 39690⟩ else ⟨51777, 28350, 69496, 39690⟩)
  else
    none

/-- `ELIGIBILITY_CRITERIA_WITH_KIDS` (main.py lines 46-55): base criteria for
households with one or more kids. -/
def ELIGIBILITY_CRITERIA_WITH_KIDS (adultCount : ℤ) (isRetired : Bool) : Option Row :=
  if adultCount = 1 then
    some (if isRetired then ⟨31076, 23540, 40911, 32956⟩ else ⟨53121, 29210, 71377, 40894⟩)
  else if adultCount = 2 then
    some (if isRetired then ⟨42668, 28350, 56244, 39690⟩ else ⟨57074, 35740, 79411, 50036⟩)
  else
    none

/-- The two keys of the `CHILD_BONUS` dictionary. -/
inductive BonusType
  | single
  | couple
  deriving DecidableEq

/-- `CHILD_BONUS` (main.py lines 58-71): bonus amounts per additional child
beyond the first. -/
def CHILD_BONUS : BonusType → Row
  | .single => ⟨5297, 7390, 9916, 10346⟩
  | .couple => ⟨11547, 7390, 16166, 10346⟩

/-- `MARRIAGE_BONUS` (main.py line 74). -/
def MARRIAGE_BONUS : ℚ := 6250

/-- `calculate_limits` (main.py lines 99-126): base row selected by
kids/no-kids, adult count and retirement, plus per-additional-child bonuses,
plus the marriage bonus on the gross thresholds. -/
def calculate_limits (request : EligibilityRequest) : Option Row :=
  if request.childCount = 0 then
    match ELIGIBILITY_CRITERIA_NO_KIDS request.adultCount request.isRetired with
    | none => none
    | some base =>
      let child_gross_bonus_a : ℚ := 0
      let child_net_bonus_a : ℚ := 0
      let child_gross_bonus_b : ℚ := 0
      let child_net_bonus_b : ℚ := 0
      let marriage_bonus : ℚ := if request.isMarried then MARRIAGE_BONUS else 0
      some ⟨base.grossA + child_gross_bonus_a + marriage_bonus,
            base.netA + child_net_bonus_a,
            base.grossB + child_gross_bonus_b + marriage_bonus,
            base.netB + child_net_bonus_b⟩
  else
    match ELIGIBILITY_CRITERIA_WITH_KIDS request.adultCount request.isRetired with
    | none => none
    | some base =>
      let additional_children : ℤ := max 0 (request.childCount - 1)
      let bonus_type : BonusType := if request.adultCount = 1 then .single else .couple
      let child_gross_bonus_a : ℚ := (additional_children : ℚ) * (CHILD_BONUS bonus_type).grossA
      let child_net_bonus_a : ℚ := (additional_children : ℚ) * (CHILD_BONUS bonus_type).netA
      let child_gross_bonus_b : ℚ := (additional_children : ℚ) * (CHILD_BONUS bonus_type).grossB
      let child_net_bonus_b : ℚ := (additional_children : ℚ) * (CHILD_BONUS bonus_type).netB
      let marriage_bonus : ℚ := if request.isMarried then MARRIAGE_BONUS else 0
      some ⟨base.grossA + child_gross_bonus_a + marriage_bonus,
            base.netA + child_net_bonus_a,
            base.grossB + child_gross_bonus_b + marriage_bonus,
            base.netB + child_net_bonus_b⟩

/-- The `details` dictionary of a `determine_eligibility` result. -/
structure Details where
  adjustedGrossA : ℚ
  adjustedNetA : ℚ
  adjustedGrossB : ℚ
  adjustedNetB : ℚ
  childBonus : Row
  deriving DecidableEq

/-- The result dictionary of `determine_eligibility`. -/
structure EligibilityResult where
  eligible : Bool
  group : String
  reason : String
  details : Details
  deriving DecidableEq

/-- The `child_bonus` reported in the response (main.py lines 181-187): the
source indexes `CHILD_BONUS` with the literal key `"single"` in all four
dimensions, for any adult count. -/
def child_bonus_of (request : EligibilityRequest) : Row :=
  let additional_children : ℤ :=
    if 0 < request.childCount then max 0 (request.childCount - 1) else 0
  ⟨(additional_children : ℚ) * (CHILD_BONUS .single).grossA,
   (additional_children : ℚ) * (CHILD_BONUS .single).netA,
   (additional_children : ℚ) * (CHILD_BONUS .single).grossB,
   (additional_children : ℚ) * (CHILD_BONUS .single).netB⟩

/-- The classification stage of `determine_eligibility` (main.py lines
180-267), reached after validation with the limits already computed. -/
def classify_with_limits (request : EligibilityRequest) (limits : Row) : EligibilityResult :=
  let child_bonus := child_bonus_of request
  let details : Details :=
    ⟨limits.grossA, limits.netA, limits.grossB, limits.netB, child_bonus⟩
  if request.grossIncome ≤ limits.grossA ∧ request.netIncome ≤ limits.netA then
    ⟨true, "Gruppe A", "Sie erfüllen die Voraussetzungen für Gruppe A.", details⟩
  else if limits.grossB < request.grossIncome ∨ limits.netB < request.netIncome then
    let reason :=
      if limits.grossB < request.grossIncome ∧ limits.netB < request.netIncome then
        "Ihr Brutto- und Nettoeinkommen liegen über den zulässigen Grenzen."
      else if limits.grossB < request.grossIncome then
        "Ihr Bruttoeinkommen liegt über der zulässigen Grenze."
      else
        "Ihr Nettoeinkommen liegt über der zulässigen Grenze."
    ⟨false, "Nicht Förderungsfähig", reason, details⟩
  else
    ⟨true, "Gruppe B", "Sie erfüllen die Voraussetzungen für Gruppe B.", details⟩

/-- The all-zero `details` returned on the two invalid-input paths. -/
def zero_details : Details := ⟨0, 0, 0, 0, ⟨0, 0, 0, 0⟩⟩

/-- `determine_eligibility` (main.py lines 128-267).  The `none` value models
the only way the Python function can raise: the table `KeyError` inside
`calculate_limits` (unreachable, see C8). -/
def determine_eligibility (request : EligibilityRequest) : Option EligibilityResult :=
  if ¬ (request.adultCount = 1 ∨ request.adultCount = 2) ∨ request.childCount < 0 then
    some ⟨false, "Nicht Förderungsfähig",
          "Ungültige Eingabedaten. Bitte überprüfen Sie Ihre Angaben.", zero_details⟩
  else if request.grossIncome ≤ 0 ∨ request.netIncome ≤ 0 then
    some ⟨false, "Nicht Förderungsfähig",
          "Das Einkommen muss größer als 0 sein.", zero_details⟩
  else
    (calculate_limits request).map (classify_with_limits request)

/-- The §4.1 contract `baseThresholds(adultCount, hasChildren, isRetired)`:
the typed lookup over the two criteria tables. -/
def baseThresholds (adultCount : ℤ) (hasChildren : Bool) (isRetired : Bool) : Option Row :=
  if hasChildren then ELIGIBILITY_CRITERIA_WITH_KIDS adultCount isRetired
  else ELIGIBILITY_CRITERIA_NO_KIDS adultCount isRetired

/-- The §4.2 contract `computeAdjustedLimits(profile)`, written from the
spec's words, for the refinement comparison with `calculate_limits` in C3:
base row selected by `hasChildren = childCount > 0`, plus
`max(0, childCount - 1)` times the bonus row for the household's bonus type
when `hasChildren` (all four bonus components zero otherwise), plus the
marriage bonus on the gross thresholds. -/
def computeAdjustedLimits (profile : EligibilityRequest) : Option Row :=
  let hasChildren : Bool := decide (0 < profile.childCount)
  match baseThresholds profile.adultCount hasChildren profile.isRetired with
  | none => none
  | some base =>
    let bonus : Row :=
      if hasChildren then
        let additionalChildren : ℤ := max 0 (profile.childCount - 1)
        let bonusType : BonusType := if profile.adultCount = 1 then .single else .couple
        ⟨(additionalChildren : ℚ) * (CHILD_BONUS bonusType).grossA,
         (additionalChildren : ℚ) * (CHILD_BONUS bonusType).netA,
         (additionalChildren : ℚ) * (CHILD_BONUS bonusType).grossB,
         (additionalChildren : ℚ) * (CHILD_BONUS bonusType).netB⟩
      else ⟨0, 0, 0, 0⟩
    let marriageBonus : ℚ := if profile.isMarried then MARRIAGE_BONUS else 0
    some ⟨base.grossA + bonus.grossA + marriageBonus,
          base.netA + bonus.netA,
          base.grossB + bonus.grossB + marriageBonus,
          base.netB + bonus.netB⟩

/-- C6: every row of the static threshold tables (no-kids and with-kids, for
each adult count in {1, 2} and each of the "base" and "retired" variants)
satisfies `grossB ≥ grossA` and `netB ≥ netA`. -/
theorem C6_table_monotonic (a : ℤ) (kids retired : Bool) :
    (baseThresholds a kids retired).all
      (fun row => decide (row.grossA ≤ row.grossB ∧ row.netA ≤ row.netB)) = true := by
  by_cases h1 : a = 1 <;> by_cases h2 : a = 2 <;>
    cases kids <;> cases retired <;>
      simp [baseThresholds, ELIGIBILITY_CRITERIA_NO_KIDS, ELIGIBILITY_CRITERIA_WITH_KIDS,
            h1, h2] <;> decide

/-- For an adult count in {1, 2}, both table lookups succeed, hence so does
`calculate_limits` (shared helper). -/
lemma calculate_limits_isSome (r : EligibilityRequest)
    (h1 : r.adultCount = 1 ∨ r.adultCount = 2) :
    ∃ L, calculate_limits r = some L := by
  by_cases hc : r.childCount = 0 <;> rcases h1 with h | h <;>
    simp [calculate_limits, hc, h,
          ELIGIBILITY_CRITERIA_NO_KIDS, ELIGIBILITY_CRITERIA_WITH_KIDS]

/-- On a valid profile, `determine_eligibility` reduces to the classification
stage applied to the computed limits (shared helper). -/
lemma determine_eligibility_eq_classify (r : EligibilityRequest)
    (h1 : r.adultCount = 1 ∨ r.adultCount = 2) (h2 : 0 ≤ r.childCount)
    (h3 : 0 < r.grossIncome) (h4 : 0 < r.netIncome)
    (L : Row) (hL : calculate_limits r = some L) :
    determine_eligibility r = some (classify_with_limits r L) := by
  have hv1 : ¬ (¬ (r.adultCount = 1 ∨ r.adultCount = 2) ∨ r.childCount < 0) := by
    push_neg
    exact ⟨h1, h2⟩
  have hv2 : ¬ (r.grossIncome ≤ 0 ∨ r.netIncome ≤ 0) := by
    push_neg
    exact ⟨h3, h4⟩
  unfold determine_eligibility
  rw [if_neg hv1, if_neg hv2, hL]
  rfl

/-- C4: the `netA` and `netB` fields of the adjusted limits are unchanged by
the `isMarried` flag — two profiles identical except for `isMarried` yield
the same `netA` and `netB`. -/
theorem C4_net_unaffected_by_marriage (r : EligibilityRequest) (m1 m2 : Bool) :
    (calculate_limits { r with isMarried := m1 }).map Row.netA =
      (calculate_limits { r with isMarried := m2 }).map Row.netA ∧
    (calculate_limits { r with isMarried := m1 }).map Row.netB =
      (calculate_limits { r with isMarried := m2 }).map Row.netB := by
  unfold calculate_limits
  by_cases hc : r.childCount = 0 <;>
    simp only [hc, if_true, if_false, reduceIte] <;>
    cases ELIGIBILITY_CRITERIA_NO_KIDS r.adultCount r.isRetired <;>
    cases ELIGIBILITY_CRITERIA_WITH_KIDS r.adultCount r.isRetired <;>
    simp

/-- C7: the `isDisabled` field never influences the output — two profiles
that differ only in `isDisabled` get identical results. -/
theorem C7_isDisabled_noninterference (r : EligibilityRequest) (d1 d2 : Bool) :
    determine_eligibility { r with isDisabled := d1 } =
      determine_eligibility { r with isDisabled := d2 } := rfl

/-- C8: the table lookup's failure branch is unreachable from
`determine_eligibility`: the limits are only computed after the
adult-count guard has passed, so the function is total — it returns a
result (never the `none` that models the lookup's `KeyError`) on every
input. -/
theorem C8_lookup_failure_unreachable (r : EligibilityRequest) :
    (determine_eligibility r).isSome = true := by
  unfold determine_eligibility
  split
  · rfl
  · split
    · rfl
    · rename_i hv1 hv2
      push_neg at hv1
      obtain ⟨L, hL⟩ := calculate_limits_isSome r hv1.1
      rw [hL]
      rfl

/-- C9: the "retired" row of the with-kids table equals the "retired" row of
the no-kids table for the same adult count, so a retired household's
adjusted limits differ from the childless case exactly by the
additional-children bonus in each dimension. -/
theorem C9_retired_base_independent_of_children (r : EligibilityRequest)
    (hret : r.isRetired = true) (ha : r.adultCount = 1 ∨ r.adultCount = 2)
    (hc : 0 < r.childCount) :
    ELIGIBILITY_CRITERIA_WITH_KIDS r.adultCount true =
      ELIGIBILITY_CRITERIA_NO_KIDS r.adultCount true ∧
    ∃ base L, calculate_limits { r with childCount := 0 } = some base ∧
      calculate_limits r = some L ∧
      L.grossA = base.grossA + ((max 0 (r.childCount - 1) : ℤ) : ℚ) *
        (CHILD_BONUS (if r.adultCount = 1 then .single else .couple)).grossA ∧
      L.netA = base.netA + ((max 0 (r.childCount - 1) : ℤ) : ℚ) *
        (CHILD_BONUS (if r.adultCount = 1 then .single else .couple)).netA ∧
      L.grossB = base.grossB + ((max 0 (r.childCount - 1) : ℤ) : ℚ) *
        (CHILD_BONUS (if r.adultCount = 1 then .single else .couple)).grossB ∧
      L.netB = base.netB + ((max 0 (r.childCount - 1) : ℤ) : ℚ) *
        (CHILD_BONUS (if r.adultCount = 1 then .single else .couple)).netB := by
  have hc0 : ¬ r.childCount = 0 := by omega
  rcases ha with h | h <;>
    constructor <;>
    · simp [calculate_limits, ELIGIBILITY_CRITERIA_NO_KIDS, ELIGIBILITY_CRITERIA_WITH_KIDS,
            h, hret, hc0, CHILD_BONUS]
      try ring_nf
      try simp

/-- C9 witness: the theorem applied to a concrete retired single-adult
household with two children. -/
theorem C9_witness :
    (calculate_limits ⟨1, 2, false, false, true, 100, 100⟩).isSome = true := by
  have h := C9_retired_base_independent_of_children ⟨1, 2, false, false, true, 100, 100⟩
    rfl (Or.inl rfl) (by decide)
  obtain ⟨-, base, L, hbase, hL, -⟩ := h
  rw [hL]
  rfl

/-- C3: for adult count in {1, 2} (and `childCount ≥ 0`, the §3 domain of a
profile), `calculate_limits` returns exactly the adjusted limits of the
spec's `computeAdjustedLimits` algorithm — base row selected by
`hasChildren`, adult count and retirement, plus `max(0, childCount - 1)`
times the bonus row for the household's bonus type when `hasChildren`
(zero otherwise), plus the marriage bonus on the gross thresholds — and the
computation succeeds. -/
theorem C3_limits_refine_spec (r : EligibilityRequest)
    (h1 : r.adultCount = 1 ∨ r.adultCount = 2) (h2 : 0 ≤ r.childCount) :
    calculate_limits r = computeAdjustedLimits r ∧
      (calculate_limits r).isSome = true := by
  by_cases hc : r.childCount = 0
  · have hnpos : ¬ (0 < r.childCount) := by omega
    rcases h1 with h | h <;>
      simp [calculate_limits, computeAdjustedLimits, baseThresholds,
            ELIGIBILITY_CRITERIA_NO_KIDS, hc, hnpos, h]
  · have hpos : 0 < r.childCount := by omega
    rcases h1 with h | h <;>
      simp [calculate_limits, computeAdjustedLimits, baseThresholds,
            ELIGIBILITY_CRITERIA_WITH_KIDS, hc, hpos, h]

/-- C3 witness: the theorem applied to a concrete married single parent with
two children. -/
theorem C3_witness :
    (calculate_limits ⟨1, 2, false, true, false, 1, 1⟩).isSome = true :=
  (C3_limits_refine_spec ⟨1, 2, false, true, false, 1, 1⟩ (Or.inl rfl) (by decide)).2

/-- C1 counterexample: for the two-adult household `{adultCount := 2,
childCount := 2, grossIncome := 1, netIncome := 1}` the claim's formula
selects the "couple" bonus row, giving `grossA` bonus `1 * 11547 = 11547`,
but the returned `childBonus.grossA` is `5297` — the "single" rate. -/
theorem C1_counterexample :
    (determine_eligibility ⟨2, 2, false, false, false, 1, 1⟩).map
        (fun res => res.details.childBonus.grossA) = some 5297 ∧
      ((max 0 ((2 : ℤ) - 1) : ℤ) : ℚ) * (CHILD_BONUS BonusType.couple).grossA = 11547 ∧
      (5297 : ℚ) ≠ 11547 := by
  have hL : calculate_limits ⟨2, 2, false, false, false, 1, 1⟩ =
      some ⟨68621, 43130, 95577, 60382⟩ := by
    norm_num [calculate_limits, ELIGIBILITY_CRITERIA_WITH_KIDS, CHILD_BONUS,
              MARRIAGE_BONUS, max_def]
  have hd := determine_eligibility_eq_classify ⟨2, 2, false, false, false, 1, 1⟩
    (Or.inr rfl) (by decide) (by decide) (by decide) _ hL
  refine ⟨?_, by norm_num [CHILD_BONUS], by norm_num⟩
  rw [hd]
  norm_num [classify_with_limits, child_bonus_of, CHILD_BONUS, max_def]

/-- C1 (amended): for every valid profile, the `childBonus` of the returned
result equals, in each of its four dimensions, `max(0, childCount - 1)`
times the single-parent bonus row — unconditionally, for both one- and
two-adult households — and it is present in the result regardless of the
eligibility outcome.  (It therefore equals the bonus added to the adjusted
limits only in the net dimensions, where the single and couple rates
coincide, or when `adultCount = 1`, or when there is at most one child.) -/
theorem C1_childBonus_single_rates (r : EligibilityRequest)
    (h1 : r.adultCount = 1 ∨ r.adultCount = 2) (h2 : 0 ≤ r.childCount)
    (h3 : 0 < r.grossIncome) (h4 : 0 < r.netIncome) :
    ∃ res, determine_eligibility r = some res ∧
      res.details.childBonus =
        ⟨((max 0 (r.childCount - 1) : ℤ) : ℚ) * (CHILD_BONUS .single).grossA,
         ((max 0 (r.childCount - 1) : ℤ) : ℚ) * (CHILD_BONUS .single).netA,
         ((max 0 (r.childCount - 1) : ℤ) : ℚ) * (CHILD_BONUS .single).grossB,
         ((max 0 (r.childCount - 1) : ℤ) : ℚ) * (CHILD_BONUS .single).netB⟩ := by
  obtain ⟨L, hL⟩ := calculate_limits_isSome r h1
  refine ⟨_, determine_eligibility_eq_classify r h1 h2 h3 h4 L hL, ?_⟩
  have hcb : (classify_with_limits r L).details.childBonus = child_bonus_of r := by
    by_cases hA : r.grossIncome ≤ L.grossA ∧ r.netIncome ≤ L.netA <;>
      by_cases hB : L.grossB < r.grossIncome ∨ L.netB < r.netIncome <;>
        simp [classify_with_limits, hA, hB]
  rw [hcb]
  unfold child_bonus_of
  by_cases hc : 0 < r.childCount
  · simp [hc]
  · have h0 : r.childCount = 0 := by omega
    simp [h0]

/-- C1 witness: the amended theorem applied to a concrete two-adult
household with three children (two additional children). -/
theorem C1_witness :
    ∃ res, determine_eligibility ⟨2, 3, false, false, false, 1, 1⟩ = some res ∧
      res.details.childBonus =
        ⟨((max 0 ((3 : ℤ) - 1) : ℤ) : ℚ) * (CHILD_BONUS .single).grossA,
         ((max 0 ((3 : ℤ) - 1) : ℤ) : ℚ) * (CHILD_BONUS .single).netA,
         ((max 0 ((3 : ℤ) - 1) : ℤ) : ℚ) * (CHILD_BONUS .single).grossB,
         ((max 0 ((3 : ℤ) - 1) : ℤ) : ℚ) * (CHILD_BONUS .single).netB⟩ :=
  C1_childBonus_single_rates ⟨2, 3, false, false, false, 1, 1⟩
    (Or.inr rfl) (by decide) (by decide) (by decide)

/-- C2: on every valid profile with adjusted limits `L`, the result is
Group A iff `grossIncome ≤ L.grossA` and `netIncome ≤ L.netA` (boundary
inclusive); otherwise it is Ineligible iff `grossIncome > L.grossB` or
`netIncome > L.netB`, with the reason distinguishing the three sub-cases
(both exceed / only gross / only net), and Group B otherwise. -/
theorem C2_tiered_classification (r : EligibilityRequest)
    (h1 : r.adultCount = 1 ∨ r.adultCount = 2) (h2 : 0 ≤ r.childCount)
    (h3 : 0 < r.grossIncome) (h4 : 0 < r.netIncome)
    (L : Row) (hL : calculate_limits r = some L) :
    ∃ res, determine_eligibility r = some res ∧
      (res.group = "Gruppe A" ↔ (r.grossIncome ≤ L.grossA ∧ r.netIncome ≤ L.netA)) ∧
      (¬ (r.grossIncome ≤ L.grossA ∧ r.netIncome ≤ L.netA) →
        ((res.group = "Nicht Förderungsfähig" ↔
            (L.grossB < r.grossIncome ∨ L.netB < r.netIncome)) ∧
         (res.group = "Gruppe B" ↔
            ¬ (L.grossB < r.grossIncome ∨ L.netB < r.netIncome)) ∧
         (res.reason = "Ihr Brutto- und Nettoeinkommen liegen über den zulässigen Grenzen." ↔
            (L.grossB < r.grossIncome ∧ L.netB < r.netIncome)) ∧
         (res.reason = "Ihr Bruttoeinkommen liegt über der zulässigen Grenze." ↔
            (L.grossB < r.grossIncome ∧ ¬ L.netB < r.netIncome)) ∧
         (res.reason = "Ihr Nettoeinkommen liegt über der zulässigen Grenze." ↔
            (¬ L.grossB < r.grossIncome ∧ L.netB < r.netIncome)))) := by
  have sNA : ("Nicht Förderungsfähig" : String) ≠ "Gruppe A" := by decide
  have sBA : ("Gruppe B" : String) ≠ "Gruppe A" := by decide
  have sBN : ("Gruppe B" : String) ≠ "Nicht Förderungsfähig" := by decide
  have sb1 : ("Sie erfüllen die Voraussetzungen für Gruppe B." : String) ≠
    "Ihr Brutto- und Nettoeinkommen liegen über den zulässigen Grenzen." := by decide
  have sb2 : ("Sie erfüllen die Voraussetzungen für Gruppe B." : String) ≠
    "Ihr Bruttoeinkommen liegt über der zulässigen Grenze." := by decide
  have sb3 : ("Sie erfüllen die Voraussetzungen für Gruppe B." : String) ≠
    "Ihr Nettoeinkommen liegt über der zulässigen Grenze." := by decide
  have sr12 : ("Ihr Brutto- und Nettoeinkommen liegen über den zulässigen Grenzen." : String) ≠
    "Ihr Bruttoeinkommen liegt über der zulässigen Grenze." := by decide
  have sr13 : ("Ihr Brutto- und Nettoeinkommen liegen über den zulässigen Grenzen." : String) ≠
    "Ihr Nettoeinkommen liegt über der zulässigen Grenze." := by decide
  have sr23 : ("Ihr Bruttoeinkommen liegt über der zulässigen Grenze." : String) ≠
    "Ihr Nettoeinkommen liegt über der zulässigen Grenze." := by decide
  refine ⟨_, determine_eligibility_eq_classify r h1 h2 h3 h4 L hL, ?_, ?_⟩
  · by_cases hA : r.grossIncome ≤ L.grossA ∧ r.netIncome ≤ L.netA
    · simp [classify_with_limits, hA]
    · by_cases hB : L.grossB < r.grossIncome ∨ L.netB < r.netIncome <;>
        simp [classify_with_limits, hA, hB, sNA, sBA]
  · intro hA
    by_cases hB : L.grossB < r.grossIncome ∨ L.netB < r.netIncome
    · by_cases hb : L.grossB < r.grossIncome ∧ L.netB < r.netIncome
      · simp only [classify_with_limits, if_neg hA, if_pos hB, if_pos hb]
        refine ⟨by simp [hB], by simp [hB, sBN.symm], by simp [hb], ?_, ?_⟩
        · simp [sr12, hb.2]
        · simp [sr13, hb.1]
      · by_cases hg : L.grossB < r.grossIncome
        · have hn : ¬ L.netB < r.netIncome := fun hn => hb ⟨hg, hn⟩
          simp only [classify_with_limits, if_neg hA, if_pos hB, if_neg hb, if_pos hg]
          refine ⟨by simp [hB], by simp [hB, sBN.symm], ?_, ?_, ?_⟩
          · simp [sr12.symm, hn]
          · simp [hg, hn]
          · simp [sr23, hg]
        · have hn : L.netB < r.netIncome := hB.resolve_left hg
          simp only [classify_with_limits, if_neg hA, if_pos hB, if_neg hb, if_neg hg]
          refine ⟨by simp [hB], by simp [hB, sBN.symm], ?_, ?_, ?_⟩
          · simp [sr13.symm, hg]
          · simp [sr23.symm, hg]
          · simp [hg, hn]
    · simp only [classify_with_limits, if_neg hA, if_neg hB]
      exact ⟨iff_of_false sBN hB, iff_of_true trivial hB,
             iff_of_false sb1 (fun h => hB (Or.inl h.1)),
             iff_of_false sb2 (fun h => hB (Or.inl h.1)),
             iff_of_false sb3 (fun h => hB (Or.inr h.2))⟩

/-- C2 witness: the theorem applied to a single-adult childless household
whose income sits exactly on the Group A thresholds (boundary inclusive). -/
theorem C2_witness :
    ∃ res, determine_eligibility ⟨1, 0, false, false, false, 38011, 23540⟩ = some res ∧
      (res.group = "Gruppe A" ↔
        ((38011 : ℚ) ≤ (Row.mk 38011 23540 52724 32956).grossA ∧
         (23540 : ℚ) ≤ (Row.mk 38011 23540 52724 32956).netA)) := by
  have hL : calculate_limits ⟨1, 0, false, false, false, 38011, 23540⟩ =
      some ⟨38011, 23540, 52724, 32956⟩ := by
    norm_num [calculate_limits, ELIGIBILITY_CRITERIA_NO_KIDS, MARRIAGE_BONUS]
  obtain ⟨res, hres, hiff, -⟩ := C2_tiered_classification
    ⟨1, 0, false, false, false, 38011, 23540⟩
    (Or.inl rfl) (by decide) (by decide) (by decide) ⟨38011, 23540, 52724, 32956⟩ hL
  exact ⟨res, hres, hiff⟩

/-- C5: the engine never raises for user-supplied bad data — an invalid
household shape (`adultCount ∉ {1,2}` or `childCount < 0`) or non-positive
income always yields a normally returned Ineligible result with all limits
and `childBonus` components zero, the reason being the invalid-input one
exactly in the invalid-shape case and the invalid-income one exactly in the
valid-shape non-positive-income case. -/
theorem C5_bad_data_returns_ineligible (r : EligibilityRequest)
    (h : ¬ (r.adultCount = 1 ∨ r.adultCount = 2) ∨ r.childCount < 0 ∨
      r.grossIncome ≤ 0 ∨ r.netIncome ≤ 0) :
    ∃ res, determine_eligibility r = some res ∧ res.eligible = false ∧
      res.group = "Nicht Förderungsfähig" ∧ res.details = zero_details ∧
      (res.reason = "Ungültige Eingabedaten. Bitte überprüfen Sie Ihre Angaben." ↔
        (¬ (r.adultCount = 1 ∨ r.adultCount = 2) ∨ r.childCount < 0)) ∧
      (res.reason = "Das Einkommen muss größer als 0 sein." ↔
        ((r.adultCount = 1 ∨ r.adultCount = 2) ∧ 0 ≤ r.childCount ∧
          (r.grossIncome ≤ 0 ∨ r.netIncome ≤ 0))) := by
  by_cases hv1 : ¬ (r.adultCount = 1 ∨ r.adultCount = 2) ∨ r.childCount < 0
  · refine ⟨⟨false, "Nicht Förderungsfähig",
        "Ungültige Eingabedaten. Bitte überprüfen Sie Ihre Angaben.", zero_details⟩,
      ?_, rfl, rfl, rfl, iff_of_true rfl hv1, iff_of_false (by decide) ?_⟩
    · unfold determine_eligibility
      rw [if_pos hv1]
    · rintro ⟨hval, hchild, -⟩
      rcases hv1 with hv | hv
      · exact hv hval
      · exact absurd hv (not_lt.mpr hchild)
  · have hv1' := hv1
    push_neg at hv1'
    have hv2 : r.grossIncome ≤ 0 ∨ r.netIncome ≤ 0 := by
      rcases h with hP | hc | hi | hn
      · exact absurd hv1'.1 hP
      · exact absurd hc (not_lt.mpr hv1'.2)
      · exact Or.inl hi
      · exact Or.inr hn
    refine ⟨⟨false, "Nicht Förderungsfähig",
        "Das Einkommen muss größer als 0 sein.", zero_details⟩,
      ?_, rfl, rfl, rfl, iff_of_false (by decide) hv1,
      iff_of_true rfl ⟨hv1'.1, hv1'.2, hv2⟩⟩
    unfold determine_eligibility
    rw [if_neg hv1, if_pos hv2]

/-- C5 witness: the theorem applied to a three-adult household. -/
theorem C5_witness :
    ∃ res, determine_eligibility ⟨3, 0, false, false, false, 1, 1⟩ = some res ∧
      res.eligible = false := by
  obtain ⟨res, hres, hel, -⟩ := C5_bad_data_returns_ineligible
    ⟨3, 0, false, false, false, 1, 1⟩ (Or.inl (by decide))
  exact ⟨res, hres, hel⟩

/-- C10: on every return path the `eligible` boolean is consistent with the
group — `eligible = true` exactly for Group A or Group B results and
`eligible = false` exactly for Ineligible ones. -/
theorem C10_eligible_iff_group (r : EligibilityRequest) (res : EligibilityResult)
    (h : determine_eligibility r = some res) :
    (res.eligible = true ↔ (res.group = "Gruppe A" ∨ res.group = "Gruppe B")) ∧
    (res.eligible = false ↔ res.group = "Nicht Förderungsfähig") := by
  unfold determine_eligibility at h
  split at h
  · obtain rfl := Option.some_injective _ h
    decide
  · split at h
    · obtain rfl := Option.some_injective _ h
      decide
    · obtain ⟨L, hL, hres⟩ := Option.map_eq_some'.mp h
      subst hres
      by_cases hA : r.grossIncome ≤ L.grossA ∧ r.netIncome ≤ L.netA
      · simp only [classify_with_limits, if_pos hA]
        decide
      · by_cases hB : L.grossB < r.grossIncome ∨ L.netB < r.netIncome
        · simp only [classify_with_limits, if_neg hA, if_pos hB]
          decide
        · simp only [classify_with_limits, if_neg hA, if_neg hB]
          decide

/-- C10 witness: the theorem applied to a Group A household and the result
computed for it. -/
theorem C10_witness :
    ∃ res, determine_eligibility ⟨1, 0, false, false, false, 1, 1⟩ = some res ∧
      (res.eligible = true ↔ (res.group = "Gruppe A" ∨ res.group = "Gruppe B")) := by
  have hL : calculate_limits ⟨1, 0, false, false, false, 1, 1⟩ =
      some ⟨38011, 23540, 52724, 32956⟩ := by
    norm_num [calculate_limits, ELIGIBILITY_CRITERIA_NO_KIDS, MARRIAGE_BONUS]
  have h : determine_eligibility ⟨1, 0, false, false, false, 1, 1⟩ =
      some (classify_with_limits ⟨1, 0, false, false, false, 1, 1⟩
        ⟨38011, 23540, 52724, 32956⟩) :=
    determine_eligibility_eq_classify ⟨1, 0, false, false, false, 1, 1⟩
      (Or.inl rfl) (by decide) (by decide) (by decide) _ hL
  exact ⟨_, h, (C10_eligible_iff_group ⟨1, 0, false, false, false, 1, 1⟩ _ h).1⟩
